import Mathlib

/-!
Shallow embedding of the video ad playback and tracking engine in
`src/js/buzzer-video.js` (classes `BuzzerVideoPlayer`, `BuzzerInterstitial`,
`BuzzerRewardedAd`), together with theorems settling the frozen claims about
its specification.

Modelling conventions:
* JS numbers that only ever hold exact values are `Int`/`Nat`; playback
  positions and durations, which are divided, are `ℚ`.  A JS number that can
  be `NaN` is an `Option` (`none` = `NaN`/`undefined`); the IEEE behaviour of
  the concrete expressions of the source (`x / 0`, `NaN` comparisons,
  `NaN || 5`) is spelled out case by case at the point of use.
* DOM side effects (beacon pixel requests, callback invocations, element
  creation/removal) are reified as an `Action` trace emitted by each handler;
  handlers are state transformers `State → State × List Action`.
* The DOM event wiring (`addEventListener`) is modelled by a `Signal` type
  delivered to a `step` function; `run` folds a list of signals.
-/

namespace BuzzerVideo

/-- The closed set of tracking-event kinds used by the player
(`start`, `firstQuartile`, `midpoint`, `thirdQuartile`, `complete`,
`skip`, `click`). -/
inductive EventKind where
  | start
  | firstQuartile
  | midpoint
  | thirdQuartile
  | complete
  | skip
  | click
deriving DecidableEq, Repr

/-- The JS string key of an event kind, as used to index
`vastData.trackingEvents` in `fireTracking`. -/
def eventName : EventKind → String
  | .start => "start"
  | .firstQuartile => "firstQuartile"
  | .midpoint => "midpoint"
  | .thirdQuartile => "thirdQuartile"
  | .complete => "complete"
  | .skip => "skip"
  | .click => "click"

/-!
## Protocol parser (`parseVast`, `parseSkipOffset`, lines 67-103)
-/

/-- JS `parseInt(s)` (radix 10): skip leading whitespace, read an optional
sign and then the longest leading run of decimal digits; `none` models the
`NaN` result when no digit is found.  (Radix-16 `0x` prefixes are outside
the input space exercised here.) -/
def jsParseInt (s : String) : Option Int :=
  let cs := s.data.dropWhile fun c => c = ' ' ∨ c = '\t' ∨ c = '\n' ∨ c = '\r'
  let signed : Int × List Char :=
    match cs with
    | '-' :: r => (-1, r)
    | '+' :: r => (1, r)
    | r => (1, r)
  let ds := signed.2.takeWhile Char.isDigit
  if ds.isEmpty then none
  else some (signed.1 * (ds.foldl (fun a c => a * 10 + (c.toNat - 48)) 0 : Nat))

/-- JS `str.split(c)` on a single-character separator, on the character
list of the string. -/
def jsSplit (c : Char) : List Char → List (List Char)
  | [] => [[]]
  | a :: rest =>
    match jsSplit c rest with
    | [] => [[a]]
    | h :: t => if a = c then [] :: h :: t else (a :: h) :: t

/-- JS `str.split(c)` producing strings. -/
def jsSplitStr (c : Char) (s : String) : List String :=
  (jsSplit c s.data).map fun cs => String.mk cs

/-- `parseSkipOffset` (lines 96-103).  Splits on `:`; a three-part form is
`parseInt(h)*3600 + parseInt(m)*60 + parseInt(s)` (which is `NaN`, modelled
`none`, as soon as one part is `NaN`); otherwise `parseInt(offset) || 5`,
where both `NaN` and `0` are falsy and fall back to `5`. -/
def parseSkipOffset (offset : String) : Option Int :=
  let parts := jsSplitStr ':' offset
  if parts.length = 3 then
    match jsParseInt (parts.getD 0 ""), jsParseInt (parts.getD 1 ""),
        jsParseInt (parts.getD 2 "") with
    | some h, some m, some s => some (h * 3600 + m * 60 + s)
    | _, _, _ => none
  else
    match jsParseInt offset with
    | none => some 5
    | some 0 => some 5
    | some n => some n

/-- Line 91 of `parseVast`:
`skipOffset ? this.parseSkipOffset(skipOffset) : null`.
`attr = none` models an absent attribute (`getAttribute` returned `null`);
a present empty string is falsy in JS and also yields `null`.  The result's
outer `Option` is JS `null`-ness; the inner `Option Int` is the (possibly
`NaN`) parsed number. -/
def skipOffsetAttrToVal (attr : Option String) : Option (Option Int) :=
  match attr with
  | none => none
  | some s => if s = "" then none else some (parseSkipOffset s)

/-- The `Tracking`-element fold of `parseVast` (lines 77-81): a JS object
starts empty and each `<Tracking event=k>url</Tracking>`, in document order,
assigns `trackingEvents[k] = url` — later assignments overwrite earlier
ones. -/
def buildTrackingEvents (ts : List (String × String)) : String → Option String :=
  ts.foldl (fun m t => fun q => if q = t.1 then some t.2 else m q) (fun _ => none)

/-- The last URL listed for key `k` in document order, when any: the
reference the last-wins fold is compared against. -/
def lastAssoc (ts : List (String × String)) (k : String) : Option String :=
  ((ts.filter fun t => decide (t.1 = k)).getLast?).map Prod.snd

/-- The fields of the parsed VAST document consumed by the player
(the return value of `parseVast`, lines 83-93). -/
structure VastData where
  mediaFile : Option String
  mediaType : Option String
  clickThrough : Option String
  clickTracking : Option String
  impressionUrl : Option String
  /-- outer `none` = JS `null` (non-skippable); `some none` = `NaN`. -/
  skipOffset : Option (Option Int)
  trackingEvents : String → Option String

/-- The raw pieces `parseVast` extracts from the document by element and
attribute lookup, before any numeric conversion: each element's trimmed
text when present, the raw `skipoffset` attribute string when present, and
the `(event, trimmed text)` pairs of all `Tracking` elements in document
order. -/
structure RawVastDoc where
  mediaFileText : Option String
  mediaTypeAttr : Option String
  clickThroughText : Option String
  clickTrackingText : Option String
  impressionText : Option String
  skipoffsetAttr : Option String
  trackingList : List (String × String)

/-- `parseVast` (lines 67-93) restricted to the conversion logic: the DOM
queries are abstracted into a `RawVastDoc`. -/
def parseVast (d : RawVastDoc) : VastData where
  mediaFile := d.mediaFileText
  mediaType := d.mediaTypeAttr
  clickThrough := d.clickThroughText
  clickTracking := d.clickTrackingText
  impressionUrl := d.impressionText
  skipOffset := skipOffsetAttrToVal d.skipoffsetAttr
  trackingEvents := buildTrackingEvents d.trackingList

/-!
## Player state and handlers (lines 14-255)
-/

/-- The keys of `this.trackingFired` the source ever sets (lines 196-221):
`start` and the three quartiles.  `complete`, `skip` and `click` are never
recorded. -/
structure TrackingFired where
  start : Bool
  firstQuartile : Bool
  midpoint : Bool
  thirdQuartile : Bool
deriving DecidableEq, Repr

/-- `this.trackingFired = {}` in the constructor: every lookup is falsy. -/
def TrackingFired.init : TrackingFired :=
  ⟨false, false, false, false⟩

/-- The caller-supplied callback configuration of a `BuzzerVideoPlayer`
(which of `onComplete`, `onSkip`, `onReward` the options carry). -/
structure PlayerConfig where
  onCompleteCb : Bool
  onSkipCb : Bool
  onRewardCb : Bool
deriving DecidableEq, Repr

/-- The mutable per-player state the tracking logic reads and writes:
`this.currentTime`, `this.trackingFired`, and whether `destroy()` ran. -/
structure PlayerState where
  currentTime : ℚ
  trackingFired : TrackingFired
  destroyed : Bool
deriving DecidableEq, Repr

/-- Constructor state (lines 34-38): `currentTime = 0`,
`trackingFired = {}`. -/
def PlayerState.init : PlayerState :=
  ⟨0, TrackingFired.init, false⟩

/-- One observable side effect of the player. -/
inductive Action where
  /-- `fireTracking(e)` was invoked: the dispatch point for event `e`. -/
  | fired (e : EventKind)
  /-- `firePixel(url)`: a beacon network request. -/
  | pixel (url : String)
  /-- `window.open(url, _blank)` from the click listener. -/
  | openUrl (url : String)
  /-- `this.options.onComplete()` invoked. -/
  | cbComplete
  /-- `this.options.onSkip()` invoked. -/
  | cbSkip
  /-- `this.options.onReward()` invoked (nullary). -/
  | cbReward
  /-- `this.destroy()` ran. -/
  | destroyed
deriving DecidableEq, Repr

/-- `fireTracking(event)` (lines 236-242): look the event's URL up in
`trackingEvents` and fire a pixel when present; for `click`, additionally
fire the `clickTracking` pixel when present.  The leading `fired e` records
the dispatch itself. -/
def fireTracking (v : VastData) (e : EventKind) : List Action :=
  Action.fired e ::
    ((match v.trackingEvents (eventName e) with
      | some url => [Action.pixel url]
      | none => []) ++
     (if e = EventKind.click then
        match v.clickTracking with
        | some u => [Action.pixel u]
        | none => []
      else []))

/-- The JS comparison `(now / dur) * 100 >= thr` as evaluated by
`onTimeUpdate`, with IEEE semantics at the edges: `dur = none` models a
`NaN`/undefined duration (every comparison with `NaN` is false);
`dur = some 0` gives `±Infinity` (or `NaN` when `now = 0`), so the
comparison holds exactly when `now > 0` (thresholds are positive). -/
def percentGE (now : ℚ) (dur : Option ℚ) (thr : ℚ) : Bool :=
  match dur with
  | none => false
  | some d =>
    if d = 0 then decide (now > 0)
    else decide (now / d * 100 ≥ thr)

/-- `onStart` (lines 195-200): fire `start` once, guarded by
`trackingFired.start`. -/
def onStart (v : VastData) (s : PlayerState) : PlayerState × List Action :=
  if s.trackingFired.start then (s, [])
  else
    ({ s with trackingFired := { s.trackingFired with start := true } },
      fireTracking v EventKind.start)

/-- `onTimeUpdate` (lines 202-222): record `currentTime`, then evaluate the
25/50/75 thresholds in that order, each guarded by its `trackingFired`
flag.  (`updateSkipButton` is pure rendering and emits no action.) -/
def onTimeUpdate (v : VastData) (s : PlayerState) (now : ℚ) (dur : Option ℚ) :
    PlayerState × List Action :=
  let s1 := { s with currentTime := now }
  let r1 :=
    if percentGE now dur 25 && !s1.trackingFired.firstQuartile then
      ({ s1 with trackingFired := { s1.trackingFired with firstQuartile := true } },
        fireTracking v EventKind.firstQuartile)
    else (s1, [])
  let r2 :=
    if percentGE now dur 50 && !r1.1.trackingFired.midpoint then
      ({ r1.1 with trackingFired := { r1.1.trackingFired with midpoint := true } },
        r1.2 ++ fireTracking v EventKind.midpoint)
    else r1
  if percentGE now dur 75 && !r2.1.trackingFired.thirdQuartile then
    ({ r2.1 with trackingFired := { r2.1.trackingFired with thirdQuartile := true } },
      r2.2 ++ fireTracking v EventKind.thirdQuartile)
  else r2

/-- `onComplete` (lines 224-228): unconditionally fire `complete`, then the
`onComplete` and `onReward` callbacks when configured.  No guard, no state
change. -/
def onComplete (cfg : PlayerConfig) (v : VastData) (s : PlayerState) :
    PlayerState × List Action :=
  (s, fireTracking v EventKind.complete ++
      (if cfg.onCompleteCb then [Action.cbComplete] else []) ++
      (if cfg.onRewardCb then [Action.cbReward] else []))

/-- `skip` (lines 230-234): unconditionally fire `skip`, invoke `onSkip`
when configured, and destroy the player.  There is no eligibility check in
the method itself. -/
def skip (cfg : PlayerConfig) (v : VastData) (s : PlayerState) :
    PlayerState × List Action :=
  ({ s with destroyed := true },
    fireTracking v EventKind.skip ++
      (if cfg.onSkipCb then [Action.cbSkip] else []) ++ [Action.destroyed])

/-- The video-element click listener (lines 124-129): only when
`clickThrough` is present, open it and fire `click` tracking. -/
def registerClick (v : VastData) (s : PlayerState) : PlayerState × List Action :=
  match v.clickThrough with
  | some u => (s, Action.openUrl u :: fireTracking v EventKind.click)
  | none => (s, [])

/-- `render`'s skip-control condition (lines 139-141):
`if (this.vastData.skipOffset !== null) this.createSkipButton()`.  Note it
consults only the parsed descriptor, never `this.options.skipOffset`. -/
def hasSkipButton (v : VastData) : Bool :=
  v.skipOffset.isSome

/-- `updateSkipButton`'s disabled state (lines 180-193):
`Math.ceil(skipOffset - currentTime) > 0` (when `skipOffset` is `NaN` the
comparison is false and the button is enabled). -/
def skipButtonDisabled (so : Option Int) (t : ℚ) : Bool :=
  match so with
  | some n => decide ((⌈(n : ℚ) - t⌉ : ℤ) > 0)
  | none => false

/-!
## Host signals and session runs
-/

/-- A host signal delivered to the player's listeners, or a direct `skip()`
call. -/
inductive Signal where
  | play
  | timeupdate (now : ℚ) (dur : Option ℚ)
  | ended
  | skipCall
  | clickSig
deriving Repr

/-- Dispatch one signal to the listener the source wires to it
(lines 124-134, 176). -/
def step (cfg : PlayerConfig) (v : VastData) (s : PlayerState) :
    Signal → PlayerState × List Action
  | .play => onStart v s
  | .timeupdate now dur => onTimeUpdate v s now dur
  | .ended => onComplete cfg v s
  | .skipCall => skip cfg v s
  | .clickSig => registerClick v s

/-- Process a list of signals in order, concatenating the emitted actions. -/
def run (cfg : PlayerConfig) (v : VastData) (s : PlayerState) :
    List Signal → PlayerState × List Action
  | [] => (s, [])
  | g :: gs =>
    let r := step cfg v s g
    let rest := run cfg v r.1 gs
    (rest.1, r.2 ++ rest.2)

/-- The sequence of dispatched event kinds of a trace, in order. -/
def firedEvents (l : List Action) : List EventKind :=
  l.filterMap fun a =>
    match a with
    | Action.fired e => some e
    | _ => none

/-- Number of `fired e` actions (dispatches of event `e`) in a trace. -/
def countFired (e : EventKind) (l : List Action) : Nat :=
  (firedEvents l).count e

/-- Number of `ended` signals in a signal list. -/
def countEnded (gs : List Signal) : Nat :=
  gs.countP fun g => match g with | Signal.ended => true | _ => false

/-- Number of `skip()` calls in a signal list. -/
def countSkipCalls (gs : List Signal) : Nat :=
  gs.countP fun g => match g with | Signal.skipCall => true | _ => false

/-- Number of click signals in a signal list. -/
def countClicks (gs : List Signal) : Nat :=
  gs.countP fun g => match g with | Signal.clickSig => true | _ => false

/-!
## Constructor option resolution (lines 20-32, 379-388, 438-453)

`this.options = { vastUrl: ..., skipOffset: options.skipOffset || 5,
..., ...options }`: the trailing spread re-applies every property the
caller passed, so an explicitly passed value — including `null` — wins over
the `||`/`??` defaults.  A field is modelled `Option (Option Int)`: outer
`none` = not passed at all, `some v` = passed with value `v` (inner `none`
= passed `null`).
-/

/-- The `skipOffset` field of `this.options` after defaulting and spread:
absent ⇒ `5`; explicitly passed (even `null`) ⇒ the passed value. -/
def resolvedSkipOffsetOption (passed : Option (Option Int)) : Option Int :=
  match passed with
  | none => some 5
  | some v => v

/-- The `skipOffset` option the Rewarded orchestrator passes to its inner
player (line 444: `skipOffset: null, // No skip for rewarded`), after the
constructor's defaulting and spread. -/
def rewardedInnerSkipOffsetOption : Option Int :=
  resolvedSkipOffsetOption (some none)

/-- Whether the player wrapped by `BuzzerRewardedAd.show` renders a skip
control for descriptor `v`: `render` (lines 139-141) tests
`this.vastData.skipOffset !== null` and never reads
`this.options.skipOffset`, so the rewarded configuration is irrelevant. -/
def rewardedInnerShowsSkipButton (v : VastData) : Bool :=
  hasSkipButton v

/-!
## Interstitial orchestrator (`BuzzerInterstitial`, lines 262-372)
-/

/-- The `BuzzerInterstitial` fields `close()` reads: whether `this.timer`
is truthy (it is set by `show()` and never nulled — `clearInterval` does
not falsify it) and whether `this.overlay` is non-null. -/
structure InterstitialState where
  timerSet : Bool
  overlayPresent : Bool
deriving DecidableEq, Repr

/-- State right after `show()`: timer started, overlay attached. -/
def InterstitialState.shown : InterstitialState :=
  ⟨true, true⟩

/-- One observable side effect of the interstitial. -/
inductive IAction where
  | clearTimer
  | removeOverlay
  | cbClose
deriving DecidableEq, Repr

/-- `close` (lines 364-371): `clearInterval` when `this.timer` is truthy;
remove the overlay and null it when present; then invoke `onClose` when
configured — on every call. -/
def interstitialClose (hasOnClose : Bool) (s : InterstitialState) :
    InterstitialState × List IAction :=
  ({ s with overlayPresent := false },
    (if s.timerSet then [IAction.clearTimer] else []) ++
    (if s.overlayPresent then [IAction.removeOverlay] else []) ++
    (if hasOnClose then [IAction.cbClose] else []))

/-- `close()` invoked `n` times in a row. -/
def interstitialCloseMany (hasOnClose : Bool) (s : InterstitialState) :
    Nat → InterstitialState × List IAction
  | 0 => (s, [])
  | n + 1 =>
    let r := interstitialClose hasOnClose s
    let rest := interstitialCloseMany hasOnClose r.1 n
    (rest.1, r.2 ++ rest.2)

/-- Number of actions of a given kind in an interstitial trace. -/
def countIAction (a : IAction) (l : List IAction) : Nat :=
  l.countP fun b => decide (b = a)

/-!
## Rewarded orchestrator (`BuzzerRewardedAd`, lines 378-498)
-/

/-- A JS value carried in the reward-callback object. -/
inductive JsVal where
  | str (s : String)
  | num (n : Int)
deriving DecidableEq, Repr

/-- The rewarded configuration: the configured reward and which callbacks
the caller passed. -/
structure RewardConfig where
  rewardType : String
  rewardAmount : Int
  hasOnReward : Bool
  hasOnClose : Bool
  hasOnError : Bool
deriving DecidableEq, Repr

/-- One observable side effect of the rewarded orchestrator. -/
inductive RAction where
  /-- the transient reward confirmation popup is shown -/
  | showPopup
  /-- `this.player.destroy()` -/
  | destroyPlayer
  /-- `this.overlay.remove()` -/
  | removeOverlay
  /-- `this.options.onClose()` -/
  | cbClose
  /-- `this.options.onError(error)` -/
  | cbError
  /-- `this.options.onReward(obj)` with the JS object's fields in order -/
  | cbReward (obj : List (String × JsVal))
deriving DecidableEq, Repr

/-- The fields of `BuzzerRewardedAd` that `close()` reads. -/
structure RewardedState where
  playerPresent : Bool
  overlayPresent : Bool
deriving DecidableEq, Repr

/-- State right after `show()`: overlay attached, inner player created. -/
def RewardedState.shown : RewardedState :=
  ⟨true, true⟩

/-- `BuzzerRewardedAd.close` (lines 490-497): destroy the player when
present, remove the overlay and null it when present, invoke `onClose`
when configured. -/
def rewardedClose (cfg : RewardConfig) (s : RewardedState) :
    RewardedState × List RAction :=
  ({ playerPresent := false, overlayPresent := false },
    (if s.playerPresent then [RAction.destroyPlayer] else []) ++
    (if s.overlayPresent then [RAction.removeOverlay] else []) ++
    (if cfg.hasOnClose then [RAction.cbClose] else []))

/-- `grantReward` (lines 458-488): show the confirmation popup, and after
the 2-second timeout invoke `onReward` — when configured — with the object
`{ type: rewardType, amount: rewardAmount }`.  The deferred callback is
placed after the synchronous actions of the same turn by `rewardedOnEnded`
below. -/
def grantRewardDeferred (cfg : RewardConfig) : List RAction :=
  if cfg.hasOnReward then
    [RAction.cbReward
      [("type", JsVal.str cfg.rewardType), ("amount", JsVal.num cfg.rewardAmount)]]
  else []

/-- A lifecycle signal reaching the rewarded orchestrator from its inner
player: natural completion (the wired `onComplete`, line 445) or a load
error (the wired `onError`, line 449). -/
inductive RSignal where
  | completed
  | loadError
deriving DecidableEq, Repr

/-- The rewarded `onComplete` closure (lines 445-448):
`this.grantReward(); this.close();`.  Synchronously: popup, then close;
the reward callback itself runs 2 seconds later. -/
def rewardedOnEnded (cfg : RewardConfig) (s : RewardedState) :
    RewardedState × List RAction :=
  let c := rewardedClose cfg s
  (c.1, RAction.showPopup :: c.2 ++ grantRewardDeferred cfg)

/-- The rewarded `onError` closure (lines 449-452):
`if (this.options.onError) this.options.onError(error); this.close();`. -/
def rewardedOnError (cfg : RewardConfig) (s : RewardedState) :
    RewardedState × List RAction :=
  let c := rewardedClose cfg s
  (c.1, (if cfg.hasOnError then [RAction.cbError] else []) ++ c.2)

/-- Dispatch one inner-player lifecycle signal. -/
def rewardedStep (cfg : RewardConfig) (s : RewardedState) :
    RSignal → RewardedState × List RAction
  | .completed => rewardedOnEnded cfg s
  | .loadError => rewardedOnError cfg s

/-- Process inner-player lifecycle signals in order.  A signal is delivered
only while the inner player is alive: `close()` runs `player.destroy()`,
which detaches the media element (`src = ''`, container cleared), so no
further `ended`/load-error events originate after a close. -/
def rewardedRun (cfg : RewardConfig) (s : RewardedState) :
    List RSignal → RewardedState × List RAction
  | [] => (s, [])
  | g :: gs =>
    if s.playerPresent then
      let r := rewardedStep cfg s g
      let rest := rewardedRun cfg r.1 gs
      (rest.1, r.2 ++ rest.2)
    else rewardedRun cfg s gs

/-- Number of reward-callback invocations in a rewarded trace. -/
def countRewardCb (l : List RAction) : Nat :=
  l.countP fun a => match a with | RAction.cbReward _ => true | _ => false

/-- Number of error-callback invocations in a rewarded trace. -/
def countErrorCb (l : List RAction) : Nat :=
  l.countP fun a => decide (a = RAction.cbError)

/-!
## Concrete sample data for counterexamples and witnesses
-/

/-- A descriptor with every tracking URL present, a click-through, and no
`skipoffset` (non-skippable: `skipOffset = null`). -/
def fullTrackVast : VastData where
  mediaFile := some "https://cdn.example/ad.mp4"
  mediaType := some "video/mp4"
  clickThrough := some "https://example.com/landing"
  clickTracking := some "https://t.example/ct"
  impressionUrl := some "https://t.example/imp"
  skipOffset := none
  trackingEvents := buildTrackingEvents
    [("start", "https://t.example/start"),
     ("firstQuartile", "https://t.example/q1"),
     ("midpoint", "https://t.example/q2"),
     ("thirdQuartile", "https://t.example/q3"),
     ("complete", "https://t.example/complete"),
     ("skip", "https://t.example/sk"),
     ("click", "https://t.example/click")]

/-- Player options with all three callbacks configured. -/
def allCallbacks : PlayerConfig := ⟨true, true, true⟩

/-- Player options with no callback configured. -/
def noCallbacks : PlayerConfig := ⟨false, false, false⟩

/-- A rewarded configuration with the defaults `coins`/`100` and all
callbacks configured. -/
def sampleRewardCfg : RewardConfig := ⟨"coins", 100, true, true, true⟩

/-- A raw VAST document whose `Linear` element carries
`skipoffset="12"`. -/
def rawDocSkip12 : RawVastDoc where
  mediaFileText := some "https://cdn.example/ad.mp4"
  mediaTypeAttr := some "video/mp4"
  clickThroughText := none
  clickTrackingText := none
  impressionText := none
  skipoffsetAttr := some "12"
  trackingList := []

/-- A raw VAST document listing two `complete` trackers, `A` then `B`, in
document order. -/
def rawDocDupComplete : RawVastDoc where
  mediaFileText := some "https://cdn.example/ad.mp4"
  mediaTypeAttr := some "video/mp4"
  clickThroughText := none
  clickTrackingText := none
  impressionText := none
  skipoffsetAttr := none
  trackingList := [("complete", "A"), ("complete", "B")]

/-!
## Helper lemmas about traces and handlers
-/

lemma firedEvents_nil : firedEvents [] = [] := rfl

lemma firedEvents_append (l1 l2 : List Action) :
    firedEvents (l1 ++ l2) = firedEvents l1 ++ firedEvents l2 := by
  simp [firedEvents]

lemma countFired_append (e : EventKind) (l1 l2 : List Action) :
    countFired e (l1 ++ l2) = countFired e l1 + countFired e l2 := by
  simp [countFired, firedEvents_append]

lemma firedEvents_fireTracking (v : VastData) (e : EventKind) :
    firedEvents (fireTracking v e) = [e] := by
  unfold fireTracking firedEvents
  cases h : v.trackingEvents (eventName e) <;>
    cases h2 : v.clickTracking <;> cases e <;> simp

/-- `onStart` always ends with the `start` flag set and fires exactly when
it was clear. -/
lemma onStart_eq (v : VastData) (s : PlayerState) :
    onStart v s =
      ({ s with trackingFired := { s.trackingFired with start := true } },
        if s.trackingFired.start then [] else fireTracking v EventKind.start) := by
  obtain ⟨ct, ⟨f0, f1, f2, f3⟩, d⟩ := s
  unfold onStart
  cases f0 <;> simp

/-- Closed form of `onTimeUpdate`: the position is always recorded, each
quartile flag is or-ed with its threshold test, and the trace holds the
newly crossed quartiles in ascending order. -/
lemma onTimeUpdate_eq (v : VastData) (s : PlayerState) (now : ℚ) (dur : Option ℚ) :
    onTimeUpdate v s now dur =
      ({ currentTime := now,
         trackingFired :=
           { start := s.trackingFired.start,
             firstQuartile := s.trackingFired.firstQuartile || percentGE now dur 25,
             midpoint := s.trackingFired.midpoint || percentGE now dur 50,
             thirdQuartile := s.trackingFired.thirdQuartile || percentGE now dur 75 },
         destroyed := s.destroyed },
       (if percentGE now dur 25 && !s.trackingFired.firstQuartile then
          fireTracking v EventKind.firstQuartile else []) ++
       (if percentGE now dur 50 && !s.trackingFired.midpoint then
          fireTracking v EventKind.midpoint else []) ++
       (if percentGE now dur 75 && !s.trackingFired.thirdQuartile then
          fireTracking v EventKind.thirdQuartile else [])) := by
  obtain ⟨ct, ⟨f0, f1, f2, f3⟩, d⟩ := s
  unfold onTimeUpdate
  cases h25 : percentGE now dur 25 <;> cases h50 : percentGE now dur 50 <;>
    cases h75 : percentGE now dur 75 <;> cases f1 <;> cases f2 <;> cases f3 <;> simp

lemma run_cons (cfg : PlayerConfig) (v : VastData) (s : PlayerState)
    (g : Signal) (gs : List Signal) :
    run cfg v s (g :: gs) =
      ((run cfg v (step cfg v s g).1 gs).1,
        (step cfg v s g).2 ++ (run cfg v (step cfg v s g).1 gs).2) := rfl

lemma firedEvents_step_play (cfg : PlayerConfig) (v : VastData) (s : PlayerState) :
    firedEvents (step cfg v s Signal.play).2 =
      if s.trackingFired.start then [] else [EventKind.start] := by
  rw [show step cfg v s Signal.play = onStart v s from rfl, onStart_eq]
  split <;> simp [firedEvents_fireTracking, firedEvents_nil]

lemma firedEvents_step_timeupdate (cfg : PlayerConfig) (v : VastData)
    (s : PlayerState) (now : ℚ) (dur : Option ℚ) :
    firedEvents (step cfg v s (Signal.timeupdate now dur)).2 =
      (if percentGE now dur 25 && !s.trackingFired.firstQuartile then
        [EventKind.firstQuartile] else []) ++
      (if percentGE now dur 50 && !s.trackingFired.midpoint then
        [EventKind.midpoint] else []) ++
      (if percentGE now dur 75 && !s.trackingFired.thirdQuartile then
        [EventKind.thirdQuartile] else []) := by
  rw [show step cfg v s (Signal.timeupdate now dur) = onTimeUpdate v s now dur from rfl,
    onTimeUpdate_eq]
  simp only [firedEvents_append, apply_ite firedEvents, firedEvents_fireTracking,
    firedEvents_nil]

lemma firedEvents_step_ended (cfg : PlayerConfig) (v : VastData) (s : PlayerState) :
    firedEvents (step cfg v s Signal.ended).2 = [EventKind.complete] := by
  rw [show step cfg v s Signal.ended = onComplete cfg v s from rfl]
  unfold onComplete
  rw [firedEvents_append, firedEvents_append, firedEvents_fireTracking]
  cases cfg.onCompleteCb <;> cases cfg.onRewardCb <;> simp [firedEvents]

lemma firedEvents_step_skipCall (cfg : PlayerConfig) (v : VastData) (s : PlayerState) :
    firedEvents (step cfg v s Signal.skipCall).2 = [EventKind.skip] := by
  rw [show step cfg v s Signal.skipCall = skip cfg v s from rfl]
  unfold skip
  rw [firedEvents_append, firedEvents_append, firedEvents_fireTracking]
  cases cfg.onSkipCb <;> simp [firedEvents]

lemma firedEvents_step_clickSig (cfg : PlayerConfig) (v : VastData) (s : PlayerState) :
    firedEvents (step cfg v s Signal.clickSig).2 =
      if v.clickThrough.isSome then [EventKind.click] else [] := by
  rw [show step cfg v s Signal.clickSig = registerClick v s from rfl]
  unfold registerClick
  cases h : v.clickThrough with
  | none => simp [firedEvents]
  | some u =>
    have : firedEvents (Action.openUrl u :: fireTracking v EventKind.click) =
        firedEvents (fireTracking v EventKind.click) := rfl
    simp [this, firedEvents_fireTracking]

/-- How one signal changes the `trackingFired` flags. -/
lemma step_tf (cfg : PlayerConfig) (v : VastData) (s : PlayerState) (g : Signal) :
    (step cfg v s g).1.trackingFired =
      { start := s.trackingFired.start ||
          (match g with | Signal.play => true | _ => false),
        firstQuartile := s.trackingFired.firstQuartile ||
          (match g with | Signal.timeupdate now dur => percentGE now dur 25 | _ => false),
        midpoint := s.trackingFired.midpoint ||
          (match g with | Signal.timeupdate now dur => percentGE now dur 50 | _ => false),
        thirdQuartile := s.trackingFired.thirdQuartile ||
          (match g with | Signal.timeupdate now dur => percentGE now dur 75 | _ => false) } := by
  cases g with
  | play => rw [show step cfg v s Signal.play = onStart v s from rfl, onStart_eq]; simp
  | timeupdate now dur =>
    rw [show step cfg v s (Signal.timeupdate now dur) = onTimeUpdate v s now dur from rfl,
      onTimeUpdate_eq]
    simp
  | ended => rw [show step cfg v s Signal.ended = onComplete cfg v s from rfl]; simp [onComplete]
  | skipCall => rw [show step cfg v s Signal.skipCall = skip cfg v s from rfl]; simp [skip]
  | clickSig =>
    rw [show step cfg v s Signal.clickSig = registerClick v s from rfl]
    unfold registerClick
    cases h : v.clickThrough <;> simp

/-- Generic once-only bound for a flag-guarded event: if a set flag
silences the event and survives every step, every step fires the event at
most once, and any step that fires it leaves the flag set, then a whole
run fires it at most once — and not at all from a state whose flag is
already set. -/
lemma run_guarded_le (cfg : PlayerConfig) (v : VastData) (e : EventKind)
    (flag : TrackingFired → Bool)
    (hsil : ∀ s g, flag s.trackingFired = true →
      countFired e (step cfg v s g).2 = 0 ∧ flag (step cfg v s g).1.trackingFired = true)
    (hone : ∀ s g, countFired e (step cfg v s g).2 ≤ 1)
    (hset : ∀ s g, 1 ≤ countFired e (step cfg v s g).2 →
      flag (step cfg v s g).1.trackingFired = true) :
    ∀ (sigs : List Signal) (s : PlayerState),
      countFired e (run cfg v s sigs).2 ≤ (if flag s.trackingFired then 0 else 1) := by
  intro sigs
  induction sigs with
  | nil => intro s; exact Nat.zero_le _
  | cons g gs ih =>
    intro s
    rw [run_cons, countFired_append]
    by_cases hf : flag s.trackingFired = true
    · obtain ⟨h0, h1⟩ := hsil s g hf
      have htail := ih (step cfg v s g).1
      rw [h1] at htail
      simp at htail
      simp [hf, h0, htail]
    · have hf2 : flag s.trackingFired = false := by
        revert hf; cases flag s.trackingFired <;> simp
      have htail := ih (step cfg v s g).1
      rcases Nat.eq_zero_or_pos (countFired e (step cfg v s g).2) with h0 | hpos
      · have hle : countFired e (run cfg v (step cfg v s g).1 gs).2 ≤ 1 := by
          rcases le_or_lt (countFired e (run cfg v (step cfg v s g).1 gs).2) 1 with h | h
          · exact h
          · exact absurd htail (by split <;> omega)
        simp [hf2, h0]
        omega
      · have h1 : countFired e (step cfg v s g).2 = 1 := le_antisymm (hone s g) hpos
        have hfa := hset s g hpos
        rw [hfa] at htail
        simp at htail
        simp [hf2, h1, htail]

lemma run_start_le (cfg : PlayerConfig) (v : VastData) (sigs : List Signal)
    (s : PlayerState) :
    countFired EventKind.start (run cfg v s sigs).2 ≤
      (if s.trackingFired.start then 0 else 1) := by
  refine run_guarded_le cfg v EventKind.start (fun tf => tf.start) ?_ ?_ ?_ sigs s
  · intro s g hf
    cases g <;>
      simp [countFired, firedEvents_step_play, firedEvents_step_timeupdate,
        firedEvents_step_ended, firedEvents_step_skipCall, firedEvents_step_clickSig,
        step_tf, hf, List.count_append, apply_ite (List.count EventKind.start),
        List.count_cons, List.count_nil]
  · intro s g
    cases g <;>
      simp [countFired, firedEvents_step_play, firedEvents_step_timeupdate,
        firedEvents_step_ended, firedEvents_step_skipCall, firedEvents_step_clickSig,
        List.count_append, apply_ite (List.count EventKind.start),
        List.count_cons, List.count_nil] <;>
      split <;> simp
  · intro s g h1
    cases g <;>
      simp_all [countFired, firedEvents_step_play, firedEvents_step_timeupdate,
        firedEvents_step_ended, firedEvents_step_skipCall, firedEvents_step_clickSig,
        step_tf, List.count_append, apply_ite (List.count EventKind.start),
        List.count_cons, List.count_nil]

lemma run_firstQuartile_le (cfg : PlayerConfig) (v : VastData) (sigs : List Signal)
    (s : PlayerState) :
    countFired EventKind.firstQuartile (run cfg v s sigs).2 ≤
      (if s.trackingFired.firstQuartile then 0 else 1) := by
  refine run_guarded_le cfg v EventKind.firstQuartile (fun tf => tf.firstQuartile) ?_ ?_ ?_ sigs s
  · intro s g hf
    cases g <;>
      simp [countFired, firedEvents_step_play, firedEvents_step_timeupdate,
        firedEvents_step_ended, firedEvents_step_skipCall, firedEvents_step_clickSig,
        step_tf, hf, List.count_append, apply_ite (List.count EventKind.firstQuartile),
        List.count_cons, List.count_nil]
  · intro s g
    cases g <;>
      simp [countFired, firedEvents_step_play, firedEvents_step_timeupdate,
        firedEvents_step_ended, firedEvents_step_skipCall, firedEvents_step_clickSig,
        List.count_append, apply_ite (List.count EventKind.firstQuartile),
        List.count_cons, List.count_nil] <;>
      split <;> simp <;> split <;> simp
  · intro s g h1
    cases g <;>
      simp_all [countFired, firedEvents_step_play, firedEvents_step_timeupdate,
        firedEvents_step_ended, firedEvents_step_skipCall, firedEvents_step_clickSig,
        step_tf, List.count_append, apply_ite (List.count EventKind.firstQuartile),
        List.count_cons, List.count_nil] <;>
      split at h1 <;> simp_all

lemma run_midpoint_le (cfg : PlayerConfig) (v : VastData) (sigs : List Signal)
    (s : PlayerState) :
    countFired EventKind.midpoint (run cfg v s sigs).2 ≤
      (if s.trackingFired.midpoint then 0 else 1) := by
  refine run_guarded_le cfg v EventKind.midpoint (fun tf => tf.midpoint) ?_ ?_ ?_ sigs s
  · intro s g hf
    cases g <;>
      simp [countFired, firedEvents_step_play, firedEvents_step_timeupdate,
        firedEvents_step_ended, firedEvents_step_skipCall, firedEvents_step_clickSig,
        step_tf, hf, List.count_append, apply_ite (List.count EventKind.midpoint),
        List.count_cons, List.count_nil]
  · intro s g
    cases g <;>
      simp [countFired, firedEvents_step_play, firedEvents_step_timeupdate,
        firedEvents_step_ended, firedEvents_step_skipCall, firedEvents_step_clickSig,
        List.count_append, apply_ite (List.count EventKind.midpoint),
        List.count_cons, List.count_nil] <;>
      split <;> simp <;> split <;> simp
  · intro s g h1
    cases g <;>
      simp_all [countFired, firedEvents_step_play, firedEvents_step_timeupdate,
        firedEvents_step_ended, firedEvents_step_skipCall, firedEvents_step_clickSig,
        step_tf, List.count_append, apply_ite (List.count EventKind.midpoint),
        List.count_cons, List.count_nil] <;>
      split at h1 <;> simp_all

lemma run_thirdQuartile_le (cfg : PlayerConfig) (v : VastData) (sigs : List Signal)
    (s : PlayerState) :
    countFired EventKind.thirdQuartile (run cfg v s sigs).2 ≤
      (if s.trackingFired.thirdQuartile then 0 else 1) := by
  refine run_guarded_le cfg v EventKind.thirdQuartile (fun tf => tf.thirdQuartile) ?_ ?_ ?_ sigs s
  · intro s g hf
    cases g <;>
      simp [countFired, firedEvents_step_play, firedEvents_step_timeupdate,
        firedEvents_step_ended, firedEvents_step_skipCall, firedEvents_step_clickSig,
        step_tf, hf, List.count_append, apply_ite (List.count EventKind.thirdQuartile),
        List.count_cons, List.count_nil]
  · intro s g
    cases g <;>
      simp [countFired, firedEvents_step_play, firedEvents_step_timeupdate,
        firedEvents_step_ended, firedEvents_step_skipCall, firedEvents_step_clickSig,
        List.count_append, apply_ite (List.count EventKind.thirdQuartile),
        List.count_cons, List.count_nil] <;>
      split <;> simp <;> split <;> simp
  · intro s g h1
    cases g <;>
      simp_all [countFired, firedEvents_step_play, firedEvents_step_timeupdate,
        firedEvents_step_ended, firedEvents_step_skipCall, firedEvents_step_clickSig,
        step_tf, List.count_append, apply_ite (List.count EventKind.thirdQuartile),
        List.count_cons, List.count_nil] <;>
      split at h1 <;> simp_all

lemma run_complete_count (cfg : PlayerConfig) (v : VastData) :
    ∀ (sigs : List Signal) (s : PlayerState),
      countFired EventKind.complete (run cfg v s sigs).2 = countEnded sigs := by
  intro sigs
  induction sigs with
  | nil => intro s; rfl
  | cons g gs ih =>
    intro s
    rw [run_cons, countFired_append, ih]
    cases g <;>
      simp [countFired, firedEvents_step_play, firedEvents_step_timeupdate,
        firedEvents_step_ended, firedEvents_step_skipCall, firedEvents_step_clickSig,
        countEnded, List.countP_cons, List.count_append,
        apply_ite (List.count EventKind.complete), List.count_cons, List.count_nil] <;>
      first
        | omega
        | (split <;> simp)

lemma run_skip_count (cfg : PlayerConfig) (v : VastData) :
    ∀ (sigs : List Signal) (s : PlayerState),
      countFired EventKind.skip (run cfg v s sigs).2 = countSkipCalls sigs := by
  intro sigs
  induction sigs with
  | nil => intro s; rfl
  | cons g gs ih =>
    intro s
    rw [run_cons, countFired_append, ih]
    cases g <;>
      simp [countFired, firedEvents_step_play, firedEvents_step_timeupdate,
        firedEvents_step_ended, firedEvents_step_skipCall, firedEvents_step_clickSig,
        countSkipCalls, List.countP_cons, List.count_append,
        apply_ite (List.count EventKind.skip), List.count_cons, List.count_nil] <;>
      first
        | omega
        | (split <;> simp)

lemma run_click_count (cfg : PlayerConfig) (v : VastData) :
    ∀ (sigs : List Signal) (s : PlayerState),
      countFired EventKind.click (run cfg v s sigs).2 =
        (if v.clickThrough.isSome then countClicks sigs else 0) := by
  intro sigs
  induction sigs with
  | nil => intro s; cases v.clickThrough <;> rfl
  | cons g gs ih =>
    intro s
    rw [run_cons, countFired_append, ih]
    cases g <;>
      simp [countFired, firedEvents_step_play, firedEvents_step_timeupdate,
        firedEvents_step_ended, firedEvents_step_skipCall, firedEvents_step_clickSig,
        countClicks, List.countP_cons, List.count_append,
        apply_ite (List.count EventKind.click), List.count_cons, List.count_nil] <;>
      cases h : v.clickThrough.isSome <;>
      simp [h] <;>
      first
        | omega
        | (split <;> simp)

/-- The threshold comparison of `onTimeUpdate` is antitone in the
threshold: a position that reaches 75 has reached 50 and 25. -/
lemma percentGE_mono (now : ℚ) (dur : Option ℚ) (t1 t2 : ℚ) (h : t1 ≤ t2)
    (h2 : percentGE now dur t2 = true) : percentGE now dur t1 = true := by
  unfold percentGE at h2 ⊢
  cases dur with
  | none => exact h2
  | some d =>
    by_cases hd : d = 0 <;> simp [hd] at h2 ⊢
    · exact h2
    · linarith

lemma buildTrackingEvents_aux (k : String) :
    ∀ (ts : List (String × String)) (m : String → Option String),
      ts.foldl (fun m t => fun q => if q = t.1 then some t.2 else m q) m k
        = (lastAssoc ts k).elim (m k) some := by
  intro ts
  induction ts with
  | nil => intro m; simp [lastAssoc]
  | cons t ts ih =>
    intro m
    rw [List.foldl_cons, ih]
    by_cases hk : t.1 = k
    · subst hk
      rcases h : (ts.filter fun p => decide (p.1 = t.1)).getLast? with _ | p
      · have hnil : (ts.filter fun p => decide (p.1 = t.1)) = [] :=
          List.getLast?_eq_none_iff.mp h
        simp [lastAssoc, hnil, List.filter_cons]
      · have h1 : lastAssoc ts t.1 = some p.2 := by
          simp [lastAssoc, h]
        have hcons : List.filter (fun p => decide (p.1 = t.1)) (t :: ts) =
            t :: List.filter (fun p => decide (p.1 = t.1)) ts := by
          simp [List.filter_cons]
        have h2 : lastAssoc (t :: ts) t.1 = some p.2 := by
          simp only [lastAssoc, hcons]
          cases hft : (ts.filter fun p => decide (p.1 = t.1)) with
          | nil => rw [hft] at h; simp at h
          | cons a l =>
            rw [List.getLast?_cons_cons, ← hft, h]
            rfl
        rw [h1, h2]
        rfl
    · simp [lastAssoc, List.filter_cons, hk, Ne.symm hk]

/-- The fold of `parseVast` over the tracking elements keeps exactly the
last URL per event key. -/
lemma buildTrackingEvents_lastAssoc (ts : List (String × String)) (k : String) :
    buildTrackingEvents ts k = lastAssoc ts k := by
  have h := buildTrackingEvents_aux k ts (fun _ => none)
  rw [buildTrackingEvents, h]
  cases lastAssoc ts k <;> rfl

lemma rewardedRun_dead (cfg : RewardConfig) :
    ∀ sigs : List RSignal, rewardedRun cfg ⟨false, false⟩ sigs = (⟨false, false⟩, []) := by
  intro sigs
  induction sigs with
  | nil => rfl
  | cons g gs ih => simpa [rewardedRun] using ih

lemma rewardedClose_shown (cfg : RewardConfig) :
    rewardedClose cfg RewardedState.shown =
      (⟨false, false⟩,
        [RAction.destroyPlayer, RAction.removeOverlay] ++
          (if cfg.hasOnClose then [RAction.cbClose] else [])) := by
  simp [rewardedClose, RewardedState.shown]

lemma rewardedRun_shown_cons (cfg : RewardConfig) (g : RSignal) (rest : List RSignal) :
    rewardedRun cfg RewardedState.shown (g :: rest) =
      (⟨false, false⟩, (rewardedStep cfg RewardedState.shown g).2) := by
  have hstate : (rewardedStep cfg RewardedState.shown g).1 = (⟨false, false⟩ : RewardedState) := by
    cases g <;>
      simp [rewardedStep, rewardedOnEnded, rewardedOnError, rewardedClose,
        RewardedState.shown]
  simp only [RewardedState.shown] at hstate ⊢
  simp only [rewardedRun]
  rw [if_pos trivial, hstate, rewardedRun_dead]
  simp

lemma interstitialCloseMany_noOverlay (h : Bool) :
    ∀ n : Nat,
      countIAction IAction.removeOverlay (interstitialCloseMany h ⟨true, false⟩ n).2 = 0 ∧
      countIAction IAction.cbClose (interstitialCloseMany h ⟨true, false⟩ n).2 =
        (if h then n else 0) ∧
      countIAction IAction.clearTimer (interstitialCloseMany h ⟨true, false⟩ n).2 = n := by
  intro n
  induction n with
  | zero => simp [interstitialCloseMany, countIAction]
  | succ n ih =>
    obtain ⟨i1, i2, i3⟩ := ih
    cases h <;>
      simp_all [interstitialCloseMany, interstitialClose, countIAction,
        List.countP_append, List.countP_cons]

/-!
## Claim theorems
-/

/-- C1, counterexample: the claim that `complete` and `skip` route through
the dispatcher at most once per session is false — two `ended` signals fire
the `complete` beacon twice (the pixel to the complete-tracking URL is
requested twice), and two `skip()` calls fire the `skip` beacon twice:
`onComplete` and `skip` have no once-only guard. -/
theorem claim1_counterexample :
    countFired EventKind.complete
      (run allCallbacks fullTrackVast PlayerState.init [Signal.ended, Signal.ended]).2 = 2
  ∧ List.count (Action.pixel "https://t.example/complete")
      (run allCallbacks fullTrackVast PlayerState.init [Signal.ended, Signal.ended]).2 = 2
  ∧ countFired EventKind.skip
      (run allCallbacks fullTrackVast PlayerState.init
        [Signal.skipCall, Signal.skipCall]).2 = 2 := by
  decide

/-- C1, amended: across a session started from the constructor state, for
any descriptor, callback configuration and host-signal sequence, each of
`start`, `firstQuartile`, `midpoint` and `thirdQuartile` routes through the
dispatcher at most once; but `complete` routes exactly once per `ended`
signal and `skip` exactly once per `skip()` call (they are unguarded), and
`click` routes once per click exactly when a click-through URL is
present. -/
theorem claim1_amended (cfg : PlayerConfig) (v : VastData) (sigs : List Signal) :
    countFired EventKind.start (run cfg v PlayerState.init sigs).2 ≤ 1
  ∧ countFired EventKind.firstQuartile (run cfg v PlayerState.init sigs).2 ≤ 1
  ∧ countFired EventKind.midpoint (run cfg v PlayerState.init sigs).2 ≤ 1
  ∧ countFired EventKind.thirdQuartile (run cfg v PlayerState.init sigs).2 ≤ 1
  ∧ countFired EventKind.complete (run cfg v PlayerState.init sigs).2 = countEnded sigs
  ∧ countFired EventKind.skip (run cfg v PlayerState.init sigs).2 = countSkipCalls sigs
  ∧ countFired EventKind.click (run cfg v PlayerState.init sigs).2
      = (if v.clickThrough.isSome then countClicks sigs else 0) := by
  refine ⟨?_, ?_, ?_, ?_, run_complete_count cfg v sigs _, run_skip_count cfg v sigs _,
    run_click_count cfg v sigs _⟩
  · simpa [PlayerState.init, TrackingFired.init] using
      run_start_le cfg v sigs PlayerState.init
  · simpa [PlayerState.init, TrackingFired.init] using
      run_firstQuartile_le cfg v sigs PlayerState.init
  · simpa [PlayerState.init, TrackingFired.init] using
      run_midpoint_le cfg v sigs PlayerState.init
  · simpa [PlayerState.init, TrackingFired.init] using
      run_thirdQuartile_le cfg v sigs PlayerState.init

/-- C2, code-bug evaluation at the failing input: the rewarded
orchestrator's inner-player options resolve `skipOffset` to `null` (line
444, `// No skip for rewarded`), yet for a descriptor carrying
`skipoffset="12"` the wrapped player still renders a skip control —
`render` consults only `vastData.skipOffset` — and that control becomes
enabled once playback reaches 12 seconds. -/
theorem claim2_code_bug_eval :
    rewardedInnerSkipOffsetOption = none
  ∧ (parseVast rawDocSkip12).skipOffset = some (some 12)
  ∧ rewardedInnerShowsSkipButton (parseVast rawDocSkip12) = true
  ∧ skipButtonDisabled (some 12) 12 = false := by
  refine ⟨rfl, by decide, by decide, ?_⟩
  norm_num [skipButtonDisabled]

/-- C3, counterexample: on natural completion the rewarded orchestrator
does invoke the reward callback exactly once, but with an object keyed
`type` and `amount` — not `rewardType` and `rewardAmount` as the claim
states. -/
theorem claim3_counterexample :
    (rewardedRun sampleRewardCfg RewardedState.shown [RSignal.completed]).2
      = [RAction.showPopup, RAction.destroyPlayer, RAction.removeOverlay,
         RAction.cbClose,
         RAction.cbReward [("type", JsVal.str "coins"), ("amount", JsVal.num 100)]]
  ∧ List.lookup "rewardType"
      [("type", JsVal.str "coins"), ("amount", JsVal.num 100)] = none
  ∧ List.lookup "rewardAmount"
      [("type", JsVal.str "coins"), ("amount", JsVal.num 100)] = none := by
  decide

/-- C3, amended: in the rewarded orchestrator the reward callback is
invoked exactly once, only on natural completion, with an object keyed
`type` and `amount` holding the configured reward type and amount; on a
load error the error callback is invoked exactly once (when configured),
the overlay is removed, and the reward callback is never invoked. -/
theorem claim3_amended (cfg : RewardConfig) (rest : List RSignal) :
    countRewardCb (rewardedRun cfg RewardedState.shown (RSignal.completed :: rest)).2
      = (if cfg.hasOnReward then 1 else 0)
  ∧ (∀ obj, RAction.cbReward obj ∈
        (rewardedRun cfg RewardedState.shown (RSignal.completed :: rest)).2 →
      obj = [("type", JsVal.str cfg.rewardType), ("amount", JsVal.num cfg.rewardAmount)])
  ∧ countRewardCb (rewardedRun cfg RewardedState.shown (RSignal.loadError :: rest)).2 = 0
  ∧ countErrorCb (rewardedRun cfg RewardedState.shown (RSignal.loadError :: rest)).2
      = (if cfg.hasOnError then 1 else 0)
  ∧ RAction.removeOverlay ∈
      (rewardedRun cfg RewardedState.shown (RSignal.loadError :: rest)).2 := by
  rw [rewardedRun_shown_cons, rewardedRun_shown_cons]
  obtain ⟨rt, ra, hr, hc, he⟩ := cfg
  cases hr <;> cases hc <;> cases he <;>
    simp [rewardedStep, rewardedOnEnded, rewardedOnError, rewardedClose,
      RewardedState.shown, grantRewardDeferred, countRewardCb, countErrorCb,
      List.countP_append, List.countP_cons]

/-- C3, witness: at the sample configuration (`coins`, `100`, all callbacks
configured), completion yields exactly one reward-callback invocation and a
load error yields none plus one error-callback invocation. -/
theorem claim3_witness :
    countRewardCb (rewardedRun sampleRewardCfg RewardedState.shown [RSignal.completed]).2 = 1
  ∧ countRewardCb (rewardedRun sampleRewardCfg RewardedState.shown [RSignal.loadError]).2 = 0
  ∧ countErrorCb (rewardedRun sampleRewardCfg RewardedState.shown [RSignal.loadError]).2 = 1 := by
  have h := claim3_amended sampleRewardCfg []
  exact ⟨by simpa [sampleRewardCfg] using h.1, h.2.2.1,
    by simpa [sampleRewardCfg] using h.2.2.2.1⟩

/-- C4, counterexample: with `skipOffsetSeconds = null` (non-skippable
descriptor) and playback at time `0`, a `skip()` call is not a no-op: it
fires the `skip` beacon (a pixel to the skip-tracking URL) and destroys the
player. -/
theorem claim4_counterexample :
    fullTrackVast.skipOffset = none
  ∧ PlayerState.init.currentTime = 0
  ∧ (skip noCallbacks fullTrackVast PlayerState.init).2
      = [Action.fired EventKind.skip, Action.pixel "https://t.example/sk",
         Action.destroyed]
  ∧ (skip noCallbacks fullTrackVast PlayerState.init).1.destroyed = true := by
  decide

/-- C4, amended: the `skip()` method itself performs no eligibility check —
for every configuration, descriptor and state it fires the `skip` event
exactly once, invokes `onSkip` when configured, and destroys the player.
Skip eligibility is enforced only in the UI: `render` creates a skip button
exactly when the descriptor's `skipOffset` is not `null`, and the button is
enabled exactly when `currentTime` has reached `skipOffset`. -/
theorem claim4_amended (cfg : PlayerConfig) (v : VastData) (s : PlayerState) :
    firedEvents (skip cfg v s).2 = [EventKind.skip]
  ∧ (skip cfg v s).1.destroyed = true
  ∧ (hasSkipButton v = true ↔ v.skipOffset ≠ none)
  ∧ (∀ (n : Int) (t : ℚ), skipButtonDisabled (some n) t = false ↔ (n : ℚ) ≤ t) := by
  refine ⟨?_, rfl, ?_, ?_⟩
  · unfold skip
    rw [firedEvents_append, firedEvents_append, firedEvents_fireTracking]
    cases cfg.onSkipCb <;> simp [firedEvents]
  · simp [hasSkipButton, Option.isSome_iff_ne_none]
  · intro n t
    simp only [skipButtonDisabled, decide_eq_false_iff_not, not_lt]
    constructor
    · intro h
      have := Int.ceil_le.mp h
      push_cast at this
      linarith
    · intro h
      apply Int.ceil_le.mpr
      push_cast
      linarith

/-- C4, witness: at the concrete non-skippable descriptor and initial state
the skip trace is `[skip]`, the player ends destroyed, the skip button
would not exist, and a 5-second offset is past at time 7. -/
theorem claim4_witness :
    firedEvents (skip noCallbacks fullTrackVast PlayerState.init).2 = [EventKind.skip]
  ∧ (skip noCallbacks fullTrackVast PlayerState.init).1.destroyed = true
  ∧ skipButtonDisabled (some 5) 7 = false := by
  have h := claim4_amended noCallbacks fullTrackVast PlayerState.init
  exact ⟨h.1, h.2.1, (h.2.2.2 5 7).mpr (by norm_num)⟩

/-- C5, counterexample: a position update with a zero duration is not a
no-op — at reported position 1 with duration 0 (`percent = Infinity`) it
fires all three quartile events, and it always overwrites the recorded
`currentTime` (0 before, 1 after). -/
theorem claim5_counterexample :
    firedEvents (onTimeUpdate fullTrackVast PlayerState.init 1 (some 0)).2
      = [EventKind.firstQuartile, EventKind.midpoint, EventKind.thirdQuartile]
  ∧ (onTimeUpdate fullTrackVast PlayerState.init 1 (some 0)).1.currentTime = 1
  ∧ PlayerState.init.currentTime = 0 := by
  decide

/-- C5, amended: a position update with an undefined (`NaN`) duration fires
no tracking event but still overwrites the recorded `currentTime`; a
position update with duration `0` and a positive position computes an
infinite percentage and fires every not-yet-fired quartile event. -/
theorem claim5_amended (v : VastData) (s : PlayerState) (now : ℚ) :
    ((onTimeUpdate v s now none).2 = []
      ∧ (onTimeUpdate v s now none).1 = { s with currentTime := now })
  ∧ (0 < now → s.trackingFired.firstQuartile = false →
      s.trackingFired.midpoint = false → s.trackingFired.thirdQuartile = false →
      firedEvents (onTimeUpdate v s now (some 0)).2
        = [EventKind.firstQuartile, EventKind.midpoint, EventKind.thirdQuartile]) := by
  constructor
  · have hp : ∀ thr : ℚ, percentGE now none thr = false := fun _ => rfl
    obtain ⟨ct, ⟨f0, f1, f2, f3⟩, d⟩ := s
    rw [onTimeUpdate_eq]
    simp [hp]
  · intro hnow h1 h2 h3
    have hp : ∀ thr : ℚ, percentGE now (some 0) thr = true := by
      intro thr
      simp [percentGE, hnow]
    rw [onTimeUpdate_eq]
    simp [hp, h1, h2, h3, firedEvents_append, firedEvents_fireTracking]

/-- C5, witness: at the concrete descriptor, the initial state and position
1: the `NaN`-duration update fires nothing and records time 1, and the
zero-duration update fires the three quartiles. -/
theorem claim5_witness :
    (onTimeUpdate fullTrackVast PlayerState.init 1 none).2 = []
  ∧ firedEvents (onTimeUpdate fullTrackVast PlayerState.init 1 (some 0)).2
      = [EventKind.firstQuartile, EventKind.midpoint, EventKind.thirdQuartile] := by
  have h := claim5_amended fullTrackVast PlayerState.init 1
  exact ⟨h.1.1, h.2 (by norm_num) rfl rfl rfl⟩

/-- C6, counterexample: the bare integer string `"0"` does not yield `0` —
`parseInt("0") || 5` is falsy, so it yields the default `5`; and the
unparseable three-part form `"a:b:c"` does not yield the default `5` — it
yields `NaN` (modelled `none`). -/
theorem claim6_counterexample :
    parseSkipOffset "0" = some 5
  ∧ ¬ parseSkipOffset "0" = some 0
  ∧ parseSkipOffset "a:b:c" = none
  ∧ ¬ parseSkipOffset "a:b:c" = some 5 := by
  decide

/-- C6, amended: a `"HH:MM:SS"` form whose parts all parse yields
`H*3600+M*60+S`; a three-part form with an unparseable part yields `NaN`
(not the default); a bare integer string yields that integer unless it
parses to `0`, which — like every other unparseable one-part form — falls
back to the default `5`; an absent or empty `skipoffset` attribute yields
`null`, never the default. -/
theorem claim6_amended :
    parseSkipOffset "00:00:05" = some 5
  ∧ parseSkipOffset "12" = some 12
  ∧ parseSkipOffset "01:02:03" = some 3723
  ∧ parseSkipOffset "0" = some 5
  ∧ parseSkipOffset "a:b:c" = none
  ∧ parseSkipOffset "later" = some 5
  ∧ parseSkipOffset "00:07" = some 5
  ∧ skipOffsetAttrToVal none = none
  ∧ skipOffsetAttrToVal (some "") = none
  ∧ skipOffsetAttrToVal (some "00:00:05") = some (some 5)
  ∧ (parseVast rawDocDupComplete).skipOffset = none := by
  decide

/-- C7: a single position update, from any state in which no quartile has
fired yet, whose percentage reaches the 75 threshold (for example a jump
from 10% to 90%) fires `firstQuartile`, `midpoint` and `thirdQuartile` in
exactly that ascending order, each exactly once, within that one call. -/
theorem claim7_quartile_order (v : VastData) (s : PlayerState) (now : ℚ)
    (dur : Option ℚ) (h1 : s.trackingFired.firstQuartile = false)
    (h2 : s.trackingFired.midpoint = false)
    (h3 : s.trackingFired.thirdQuartile = false)
    (h75 : percentGE now dur 75 = true) :
    firedEvents (onTimeUpdate v s now dur).2
      = [EventKind.firstQuartile, EventKind.midpoint, EventKind.thirdQuartile] := by
  have h25 : percentGE now dur 25 = true :=
    percentGE_mono now dur 25 75 (by norm_num) h75
  have h50 : percentGE now dur 50 = true :=
    percentGE_mono now dur 50 75 (by norm_num) h75
  rw [onTimeUpdate_eq]
  simp [h25, h50, h75, h1, h2, h3, firedEvents_append, firedEvents_fireTracking]

/-- C7, witness: a session at 3 of 30 seconds (10%) with no quartile fired
receives one update to 27 seconds (90%): the call fires exactly
`firstQuartile`, `midpoint`, `thirdQuartile` in that order. -/
theorem claim7_witness :
    firedEvents (onTimeUpdate fullTrackVast ⟨3, TrackingFired.init, false⟩ 27 (some 30)).2
      = [EventKind.firstQuartile, EventKind.midpoint, EventKind.thirdQuartile] :=
  claim7_quartile_order fullTrackVast ⟨3, TrackingFired.init, false⟩ 27 (some 30)
    rfl rfl rfl (by norm_num [percentGE])

/-- C8, counterexample: `close()` is not idempotent in the completion
callback — two consecutive `close()` calls on a shown interstitial invoke
`onClose` twice, not exactly once (lines 364-371 re-run the callback on
every call). -/
theorem claim8_counterexample :
    countIAction IAction.cbClose (interstitialCloseMany true InterstitialState.shown 2).2 = 2 := by
  decide

/-- C8, amended: over any number `n ≥ 1` of consecutive `close()` calls on
a shown interstitial, the overlay is removed exactly once (the overlay
reference is nulled, so removal is idempotent), but `clearInterval` runs on
every call and the completion callback — when configured — is invoked on
every call, `n` times in total. -/
theorem claim8_amended (h : Bool) (n : Nat) :
    countIAction IAction.removeOverlay
      (interstitialCloseMany h InterstitialState.shown n).2 = min n 1
  ∧ countIAction IAction.cbClose
      (interstitialCloseMany h InterstitialState.shown n).2 = (if h then n else 0)
  ∧ countIAction IAction.clearTimer
      (interstitialCloseMany h InterstitialState.shown n).2 = n := by
  cases n with
  | zero => simp [interstitialCloseMany, countIAction]
  | succ n =>
    obtain ⟨i1, i2, i3⟩ := interstitialCloseMany_noOverlay h n
    cases h <;>
      simp_all [interstitialCloseMany, interstitialClose, InterstitialState.shown,
        countIAction, List.countP_append, List.countP_cons] <;>
      omega

/-- C9: the `Tracking`-element fold keeps, for every document and every
event kind, exactly the last URL listed for that kind in document order;
in particular two `complete` trackers `A` then `B` yield
`trackingEvents.complete = "B"`. -/
theorem claim9_last_wins :
    (∀ (ts : List (String × String)) (k : String),
      buildTrackingEvents ts k = lastAssoc ts k)
  ∧ buildTrackingEvents [("complete", "A"), ("complete", "B")] "complete" = some "B"
  ∧ (parseVast rawDocDupComplete).trackingEvents "complete" = some "B" := by
  refine ⟨buildTrackingEvents_lastAssoc, by decide, by decide⟩

/-- C10: on natural completion (`ended`), the plain `BuzzerVideoPlayer`
itself fires `complete` tracking and then invokes the caller's
`onComplete` and `onReward` callbacks (nullary, in that order) whenever
both are configured — the reward callback is not exclusive to the Rewarded
orchestrator, and the handler changes no state. -/
theorem claim10_reward_on_plain_player (cfg : PlayerConfig) (v : VastData)
    (s : PlayerState) (hc : cfg.onCompleteCb = true) (hr : cfg.onRewardCb = true) :
    (onComplete cfg v s).2
      = fireTracking v EventKind.complete ++ [Action.cbComplete, Action.cbReward]
  ∧ (onComplete cfg v s).1 = s := by
  simp [onComplete, hc, hr]

/-- C10, witness: with all callbacks configured, the `ended` handler of the
plain player emits the complete beacon followed by `onComplete` and then
`onReward`. -/
theorem claim10_witness :
    (onComplete allCallbacks fullTrackVast PlayerState.init).2
      = fireTracking fullTrackVast EventKind.complete
        ++ [Action.cbComplete, Action.cbReward] :=
  (claim10_reward_on_plain_player allCallbacks fullTrackVast PlayerState.init rfl rfl).1

end BuzzerVideo
